import Mathlib

/-!
Verification of the lead-qualification / RAG answering engine.

Python strings are modelled as `List Char` (`Str`).  The relevant pieces of
`app/db.py`, `app/handlers/business.py`, `app/rag/llm.py` and
`app/rag/store.py` are translated into executable Lean definitions below;
the theorems about the specified behaviour follow the definitions.

Timestamps are modelled as integer instants measured in minutes, so that a
`timedelta(minutes=n)` is just the integer `n`; JSON payloads
(`summary_json`, `rag_sources_json`) are modelled as the already-serialized
strings, since no property below inspects their encoding.
-/

/-!  String primitives mirroring the Python built-ins the code uses. -/

/-- Python `str` modelled as a list of characters. -/
abbrev Str := List Char

/-- Shorthand turning a Lean string literal into the `List Char` model. -/
def toL (s : String) : Str := s.data

/-- Lower-casing of a single character as Python `str.lower` acts on the
alphabets used by this program: ASCII `A`-`Z` and Cyrillic `А`-`Я`, `Ё`. -/
def lowerChar (c : Char) : Char :=
  if 65 ≤ c.toNat ∧ c.toNat ≤ 90 then Char.ofNat (c.toNat + 32)
  else if 1040 ≤ c.toNat ∧ c.toNat ≤ 1071 then Char.ofNat (c.toNat + 32)
  else if c.toNat = 1025 then Char.ofNat 1105
  else c

/-- Python `text.lower()`. -/
def strLower (s : Str) : Str := s.map lowerChar

/-- The whitespace characters of Python's `str.strip` / `re` `\s`
(ASCII range). -/
def isSpaceChar (c : Char) : Bool :=
  c = ' ' || c = '\t' || c = '\n' || c = '\r' || c.toNat = 11 || c.toNat = 12

/-- Python `s.strip()`: drop leading and trailing whitespace. -/
def pyStrip (s : Str) : Str :=
  ((s.dropWhile isSpaceChar).reverse.dropWhile isSpaceChar).reverse

/-- Python `s.replace(" ", "")`: remove every plain space character. -/
def removeSpaces (s : Str) : Str := s.filter (fun c => c ≠ ' ')

/-- Does `hay` start with `needle`?  (Python prefix test used to implement
substring containment.) -/
def strStarts : Str → Str → Bool
  | _, [] => true
  | [], _ :: _ => false
  | h :: hs, n :: ns => h = n && strStarts hs ns

/-- Python `needle in hay` substring containment. -/
def strContains : Str → Str → Bool
  | [], needle => needle.isEmpty
  | h :: t, needle => strStarts (h :: t) needle || strContains t needle

/-- Python `any(p in low for p in pats)`. -/
def containsAny (low : Str) (pats : List Str) : Bool :=
  pats.any (fun p => strContains low p)

/-!  Data model and operations of `app/db.py`. -/

/-- One row of the `leads` table, as read back by `Database.get_lead`
(`app/db.py`, `LeadInfo`).  Nullable text columns are `Option Str`;
`summary_json` and `rag_sources_json` carry the serialized JSON payload;
timestamps are integer instants. -/
structure LeadInfo where
  business_connection_id : Str
  client_chat_id : Int
  step : Int
  need : Option Str
  budget : Option Str
  deadline : Option Str
  contact_method : Option Str
  phone : Option Str
  call_time : Option Str
  summary_json : Option Str
  escalation_open : Bool
  escalation_last_at : Option Int
  last_client_message : Option Str
  rag_sources_json : Option Str
  urgency : Option Str
  created_at : Int
  updated_at : Int
deriving DecidableEq, Repr

/-- The keyword arguments of `Database.update_lead_fields`: every column is
optional and a `none` argument leaves the column out of the generated
`UPDATE ... SET` list.  `summary` and `rag_sources` stand for the
JSON-serialized payloads the Python code produces with `json.dumps`. -/
structure LeadUpdate where
  step : Option Int
  need : Option Str
  budget : Option Str
  deadline : Option Str
  contact_method : Option Str
  phone : Option Str
  call_time : Option Str
  summary : Option Str
  escalation_open : Option Bool
  escalation_last_at : Option Int
  last_client_message : Option Str
  rag_sources : Option Str
  urgency : Option Str
deriving DecidableEq, Repr

/-- The empty argument list: no column supplied. -/
def noUpdate : LeadUpdate :=
  ⟨none, none, none, none, none, none, none, none, none, none, none, none, none⟩

/-- `Database.update_lead_fields` (`app/db.py` lines 335-409): the generated
SQL sets exactly the columns whose argument is not `None`, and always sets
`updated_at = NOW()`. -/
def update_lead_fields (lead : LeadInfo) (now : Int) (u : LeadUpdate) : LeadInfo :=
  { lead with
    step := u.step.getD lead.step
    need := (u.need.map some).getD lead.need
    budget := (u.budget.map some).getD lead.budget
    deadline := (u.deadline.map some).getD lead.deadline
    contact_method := (u.contact_method.map some).getD lead.contact_method
    phone := (u.phone.map some).getD lead.phone
    call_time := (u.call_time.map some).getD lead.call_time
    summary_json := (u.summary.map some).getD lead.summary_json
    escalation_open := u.escalation_open.getD lead.escalation_open
    escalation_last_at := (u.escalation_last_at.map some).getD lead.escalation_last_at
    last_client_message := (u.last_client_message.map some).getD lead.last_client_message
    rag_sources_json := (u.rag_sources.map some).getD lead.rag_sources_json
    urgency := (u.urgency.map some).getD lead.urgency
    updated_at := now }

/-- `Database.create_or_reset_lead` (`app/db.py` lines 272-322): a single
`INSERT ... ON CONFLICT DO UPDATE` that either inserts a fresh empty lead or
resets every collected column of the existing row (`created_at` is kept on
conflict, `updated_at` is stamped). -/
def create_or_reset_lead (prev : Option LeadInfo) (bcid : Str) (ccid : Int)
    (now : Int) : LeadInfo :=
  match prev with
  | none =>
      { business_connection_id := bcid
        client_chat_id := ccid
        step := 0
        need := none
        budget := none
        deadline := none
        contact_method := none
        phone := none
        call_time := none
        summary_json := none
        escalation_open := false
        escalation_last_at := none
        last_client_message := none
        rag_sources_json := none
        urgency := none
        created_at := now
        updated_at := now }
  | some old =>
      { old with
        step := 0
        need := none
        budget := none
        deadline := none
        contact_method := none
        phone := none
        call_time := none
        summary_json := none
        escalation_open := false
        escalation_last_at := none
        last_client_message := none
        rag_sources_json := none
        urgency := none
        updated_at := now }

/-- One row of the `escalations` table. -/
structure EscalationRow where
  escalation_open : Bool
  last_alert_at : Option Int
  reason : Str
  urgency : Str
  last_message : Str
deriving DecidableEq, Repr

/-- `Database.mark_escalation` (`app/db.py` lines 411-486), the transactional
part on the `escalations` row: read `last_alert_at`; `should_alert` is `True`
unless a stored instant exists with `now - prev < cooldown_minutes`; then
upsert the row with `escalation_open = TRUE`, `last_alert_at` advanced to
`now` only when `should_alert`, and `reason`/`urgency`/`last_message` always
refreshed.  Returns `(should_alert, new row)`. -/
def mark_escalation (row : Option EscalationRow) (now : Int)
    (reason urgency last_message : Str) (cooldown_minutes : Int) :
    Bool × EscalationRow :=
  let should_alert : Bool :=
    match row with
    | none => true
    | some r =>
        match r.last_alert_at with
        | none => true
        | some prev => !(decide (now - prev < cooldown_minutes))
  match row with
  | none =>
      (should_alert,
        { escalation_open := true
          last_alert_at := some now
          reason := reason
          urgency := urgency
          last_message := last_message })
  | some r =>
      (should_alert,
        { escalation_open := true
          last_alert_at := if should_alert then some now else r.last_alert_at
          reason := reason
          urgency := urgency
          last_message := last_message })

/-- The stored `last_alert_at` of an optional escalation row. -/
def escLastAt (row : Option EscalationRow) : Option Int :=
  row.bind (·.last_alert_at)

/-!  Risk classification and text normalization of `app/handlers/business.py`. -/

def STEP_WELCOME : Int := 0

def STEP_NEED : Int := 1

def STEP_BUDGET : Int := 2

def STEP_DEADLINE : Int := 3

def STEP_CONTACT_METHOD : Int := 4

def STEP_PHONE : Int := 5

def STEP_CALL_TIME : Int := 6

def STEP_DONE : Int := 7

def ALLOWED_NEED : List Str :=
  [toL "бот", toL "сайт", toL "автоматизация", toL "другое"]

def ALLOWED_BUDGET : List Str :=
  [toL "до 30k", toL "30–80k", toL "80–150k", toL "150k+"]

def ALLOWED_DEADLINE : List Str :=
  [toL "срочно 1–3 дня", toL "1–2 недели", toL "в течение месяца", toL "не горит"]

def ALLOWED_CONTACT : List Str :=
  [toL "в Telegram", toL "по телефону", toL "созвон"]

def HUMAN_REQUEST_PATTERNS : List Str :=
  [toL "оператор", toL "менеджер", toL "человек", toL "живой", toL "свяжите",
   toL "позовите", toL "переключите", toL "не бот", toL "хочу поговорить",
   toL "передай руководителю"]

def NEGATIVE_HARD_PATTERNS : List Str :=
  [toL "мошенники", toL "обман", toL "развод", toL "верните деньги",
   toL "обманули", toL "суд", toL "прокуратур", toL "роспотребнадзор",
   toL "заявление", toL "жалоба", toL "претензия"]

def NEGATIVE_SOFT_PATTERNS : List Str :=
  [toL "плохой сервис", toL "вы достали", toL "ужас", toL "ненавижу",
   toL "не нравится", toL "разочарован"]

def PROFANITY_PATTERNS : List Str :=
  [toL "идиот", toL "тупые", toL "сука", toL "блять", toL "хер",
   toL "долбо", toL "уроды"]

/-- The risk dict returned by `_rule_based_risk` / `classify_risk`
(`need_human`, `negative`, `urgency`, `reason`, `confidence`).  The
program's confidence values are the exact decimals 0.95, 0.9, 0.55 and the
threshold 0.6, so confidence is modelled in hundredths: 95 stands for
0.95. -/
structure RiskVerdict where
  need_human : Bool
  negative : Bool
  urgency : Str
  reason : Str
  confidence : Int
deriving DecidableEq, Repr

/-- The verdict of the explicit human-request tier of `_rule_based_risk`. -/
def humanRequestVerdict : RiskVerdict :=
  { need_human := true
    negative := false
    urgency := toL "high"
    reason := toL "Прямой запрос на оператора"
    confidence := 95 }

def neutralRisk : RiskVerdict :=
  { need_human := false, negative := false, urgency := toL "low", reason := toL "", confidence := 0 }

/-- `_rule_based_risk` (`app/handlers/business.py` lines 266-292): ordered
rule tiers over the lower-cased text; the first matching tier wins and
returns its fixed verdict; `none` when no tier matches. -/
def rule_based_risk (text : Str) : Option RiskVerdict :=
  let low := strLower text
  if containsAny low HUMAN_REQUEST_PATTERNS then
    some humanRequestVerdict
  else if containsAny low NEGATIVE_HARD_PATTERNS || containsAny low PROFANITY_PATTERNS then
    some { need_human := true
           negative := true
           urgency := toL "high"
           reason := toL "Сильный негатив/конфликт"
           confidence := 90 }
  else if containsAny low NEGATIVE_SOFT_PATTERNS then
    some { need_human := false
           negative := true
           urgency := toL "medium"
           reason := toL "Негатив средней силы"
           confidence := 55 }
  else
    none

/-- The risk pipeline of `on_business_message` (`app/handlers/business.py`
lines 179-181): the rule tiers run first, and only when none matches is the
LLM classifier consulted (`llm` stands for whatever `classify_risk` would
return, including its neutral default). -/
def risk_of (text : Str) (llm : RiskVerdict) : RiskVerdict :=
  match rule_based_risk text with
  | some r => r
  | none => llm

/-- `_should_critical_escalate` (`app/handlers/business.py` lines 257-263). -/
def should_critical_escalate (risk : RiskVerdict) : Bool :=
  risk.need_human || strLower risk.urgency = toL "high"
    || (risk.negative && decide ((60 : Int) ≤ risk.confidence))

/-- `_normalize_need` (`app/handlers/business.py` lines 755-765). -/
def normalize_need (value : Str) : Option Str :=
  let low := pyStrip (strLower value)
  if strContains low (toL "бот") then some (toL "бот")
  else if strContains low (toL "сайт") then some (toL "сайт")
  else if strContains low (toL "автомат") then some (toL "автоматизация")
  else if strContains low (toL "друго") then some (toL "другое")
  else if low ∈ ALLOWED_NEED then some low
  else none

/-- `_normalize_budget` (`app/handlers/business.py` lines 768-778). -/
def normalize_budget (value : Str) : Option Str :=
  let low := removeSpaces (strLower value)
  if strContains low (toL "30") && (strContains low (toL "до") || strContains low (toL "<")) then
    some (toL "до 30k")
  else if strContains low (toL "30") && strContains low (toL "80") then
    some (toL "30–80k")
  else if strContains low (toL "80") && strContains low (toL "150") then
    some (toL "80–150k")
  else if strContains low (toL "150") || strContains low (toL "+") then
    some (toL "150k+")
  else if value ∈ ALLOWED_BUDGET then some value
  else none

/-- `_normalize_deadline` (`app/handlers/business.py` lines 781-791). -/
def normalize_deadline (value : Str) : Option Str :=
  let low := strLower value
  if strContains low (toL "сроч") || strContains low (toL "1-3") || strContains low (toL "1–3") then
    some (toL "срочно 1–3 дня")
  else if strContains low (toL "1-2") || strContains low (toL "1–2") || strContains low (toL "недел") then
    some (toL "1–2 недели")
  else if strContains low (toL "месяц") then
    some (toL "в течение месяца")
  else if strContains low (toL "не гор") then
    some (toL "не горит")
  else if value ∈ ALLOWED_DEADLINE then some value
  else none

/-- `_normalize_contact` (`app/handlers/business.py` lines 794-802).  Note
the source order: the `"звон"` substring test comes before the `"созвон"`
test. -/
def normalize_contact (value : Str) : Option Str :=
  let low := strLower value
  if strContains low (toL "telegram") then some (toL "в Telegram")
  else if strContains low (toL "телефон") || strContains low (toL "звон") then
    some (toL "по телефону")
  else if strContains low (toL "созвон") then some (toL "созвон")
  else if value ∈ ALLOWED_CONTACT then some value
  else none

/-!  Phone extraction and the lead state machine. -/

/-- The regex class `\d`, modelled as the ASCII digits the program's phone
inputs consist of. -/
def isDigitChar (c : Char) : Bool :=
  48 ≤ c.toNat && c.toNat ≤ 57

/-- The character class `[\d\-\s\(\)]` of the phone regex. -/
def isPhoneSep (c : Char) : Bool :=
  isDigitChar c || c = '-' || isSpaceChar c || c = '(' || c = ')'

/-- Matching `\d[\d\-\s\(\)]{8,}\d` at the start of `s`: a digit, then a
greedy (longest-possible) run of at least eight class characters, then a
final digit.  Returns the matched characters. -/
def phoneCore (s : Str) : Option Str :=
  match s with
  | [] => none
  | d :: rest =>
      if isDigitChar d then
        let run := rest.takeWhile isPhoneSep
        let ks := (List.range run.length).filter
          (fun k => decide (8 ≤ k) && (run[k]?.elim false isDigitChar))
        match ks.getLast? with
        | some k =>
            match run[k]? with
            | some c => some (d :: (run.take k ++ [c]))
            | none => none
        | none => none
      else none

/-- `re.search` of the pattern `(\+?\d[\d\-\s\(\)]{8,}\d)`: try every start
position left to right; at a position holding `+` the optional `\+?` first
consumes it (backtracking to the empty alternative cannot succeed there,
since `\d` does not match `+`). -/
def phoneScan : Str → Option Str
  | [] => none
  | c :: rest =>
      let attempt :=
        if c = '+' then (phoneCore rest).map (fun g => '+' :: g)
        else phoneCore (c :: rest)
      match attempt with
      | some g => some g
      | none => phoneScan rest

/-- `_extract_phone` (`app/handlers/business.py` lines 805-807):
`match.group(1).strip()` on the first regex match, `None` otherwise. -/
def extract_phone (value : Str) : Option Str :=
  (phoneScan value).map pyStrip

/-- Python truthiness of an optional string column (`not lead.need`):
falsy when absent or empty. -/
def optFalsy (o : Option Str) : Bool :=
  match o with
  | none => true
  | some s => s.isEmpty

/-- Python truthiness of `extracted.get(...)`: present and non-empty. -/
def optTruthy (o : Option Str) : Bool := !(optFalsy o)

/-- `_next_step` (`app/handlers/business.py` lines 578-591): the first unset
required field in fixed order, with the phone/call-time branch keyed on the
stored `contact_method` value. -/
def next_step (lead : LeadInfo) : Int :=
  if optFalsy lead.need then STEP_NEED
  else if optFalsy lead.budget then STEP_BUDGET
  else if optFalsy lead.deadline then STEP_DEADLINE
  else if optFalsy lead.contact_method then STEP_CONTACT_METHOD
  else if lead.contact_method = some (toL "по телефону") ∧ optFalsy lead.phone then STEP_PHONE
  else if lead.contact_method = some (toL "созвон") ∧ optFalsy lead.call_time then STEP_CALL_TIME
  else STEP_DONE

/-- The field proposals returned by `extract_lead_fields`
(`app/rag/llm.py` lines 126-154): each value is `None` or a non-empty
stripped string. -/
structure ExtractedFields where
  need : Option Str
  budget : Option Str
  timeline : Option Str
  contact_method : Option Str
  phone : Option Str
deriving DecidableEq, Repr

/-- The all-`None` default of `extract_lead_fields`, returned whenever no
LLM provider is configured or the call fails. -/
def empty_extracted : ExtractedFields := ⟨none, none, none, none, none⟩

/-- `_apply_extracted_fields` (`app/handlers/business.py` lines 534-575):
each proposal is considered only when the stored field is falsy and the
proposal truthy, is normalized by the same normalizer as the guided flow,
and is kept only when normalization succeeds; the single update statement
is issued only when at least one field survived. -/
def apply_extracted_fields (lead : LeadInfo) (now : Int) (ext : ExtractedFields) : LeadInfo :=
  let updNeed : Option Str :=
    if optFalsy lead.need && optTruthy ext.need then normalize_need (ext.need.getD []) else none
  let updBudget : Option Str :=
    if optFalsy lead.budget && optTruthy ext.budget then normalize_budget (ext.budget.getD []) else none
  let updDeadline : Option Str :=
    if optFalsy lead.deadline && optTruthy ext.timeline then normalize_deadline (ext.timeline.getD []) else none
  let updContact : Option Str :=
    if optFalsy lead.contact_method && optTruthy ext.contact_method then
      normalize_contact (ext.contact_method.getD []) else none
  let updPhone : Option Str :=
    if optFalsy lead.phone && optTruthy ext.phone then extract_phone (ext.phone.getD []) else none
  if updNeed.isSome || updBudget.isSome || updDeadline.isSome || updContact.isSome || updPhone.isSome then
    update_lead_fields lead now
      { noUpdate with
        need := updNeed
        budget := updBudget
        deadline := updDeadline
        contact_method := updContact
        phone := updPhone }
  else lead

/-- The state effect of `_advance_or_ask_next` (`app/handlers/business.py`
lines 594-675) when no LLM provider is configured: the step column is set to
`_next_step` (with no provider, `classify_intent` returns its `unknown`
default, so the `STEP_NEED` branch only sends a prompt; the outbound prompts
and the finalization notification do not change the columns this file
reasons about). -/
def advance_step (lead : LeadInfo) (now : Int) : LeadInfo :=
  update_lead_fields lead now { noUpdate with step := some (next_step lead) }

/-- `_handle_lead_dialog` (`app/handlers/business.py` lines 487-531) with no
LLM provider configured (`extract_lead_fields` returns its all-`None`
default): store the message, normalize the reply for the current step
(an invalid normalization writes nothing), apply the (empty) extraction
pass, then advance the step. -/
def lead_dialog_no_llm (lead : LeadInfo) (now : Int) (text : Str) : LeadInfo :=
  let lead1 := update_lead_fields lead now { noUpdate with last_client_message := some text }
  let lead2 :=
    if lead1.step = STEP_NEED then
      match normalize_need text with
      | some v => update_lead_fields lead1 now { noUpdate with need := some v }
      | none => lead1
    else if lead1.step = STEP_BUDGET then
      match normalize_budget text with
      | some v => update_lead_fields lead1 now { noUpdate with budget := some v }
      | none => lead1
    else if lead1.step = STEP_DEADLINE then
      match normalize_deadline text with
      | some v => update_lead_fields lead1 now { noUpdate with deadline := some v }
      | none => lead1
    else if lead1.step = STEP_CONTACT_METHOD then
      match normalize_contact text with
      | some v => update_lead_fields lead1 now { noUpdate with contact_method := some v }
      | none => lead1
    else if lead1.step = STEP_PHONE then
      match extract_phone text with
      | some v => update_lead_fields lead1 now { noUpdate with phone := some v }
      | none => lead1
    else if lead1.step = STEP_CALL_TIME then
      update_lead_fields lead1 now { noUpdate with call_time := some text }
    else lead1
  let lead3 := apply_extracted_fields lead2 now empty_extracted
  advance_step lead3 now

/-- The re-entry guard of `on_business_message` (`app/handlers/business.py`
lines 214-217): a lead whose step is `STEP_DONE` is put through
`create_or_reset_lead` before any further branch runs. -/
def reset_if_done (lead : LeadInfo) (now : Int) : LeadInfo :=
  if lead.step = STEP_DONE then
    create_or_reset_lead (some lead) lead.business_connection_id lead.client_chat_id now
  else lead

/-!  RAG answering (`app/rag/llm.py`) and retrieval (`app/rag/store.py`). -/

/-- A retrieved knowledge chunk (`app/rag/store.py`, `RetrievedChunk`). -/
structure RetrievedChunk where
  text : Str
  source_url : Str
  title : Str
deriving DecidableEq, Repr

/-- `_unique_urls` (`app/handlers/business.py` lines 819-827) and the
identical inline dedup loop of `generate_answer`: keep each stripped,
non-empty URL the first time it is seen. -/
def uniqueUrlsGo (seen : List Str) : List Str → List Str
  | [] => []
  | u :: rest =>
      let clean := pyStrip u
      if clean ≠ [] ∧ clean ∉ seen then clean :: uniqueUrlsGo (clean :: seen) rest
      else uniqueUrlsGo seen rest

/-- First-occurrence-wins deduplication of a URL list. -/
def unique_urls (urls : List Str) : List Str := uniqueUrlsGo [] urls

/-- The maximal chunk text length used in the grounded prompt. -/
def MAX_CHUNK_TEXT : Nat := 1400

/-- One numbered, source/title-tagged, length-truncated context block of
`generate_answer`. -/
def context_part (i : Nat) (c : RetrievedChunk) : Str :=
  toL "[" ++ Nat.toDigits 10 i ++ toL "] title=" ++
    (if c.title.isEmpty then toL "-" else c.title) ++
    toL "; source=" ++ c.source_url ++ toL "\n" ++ c.text.take MAX_CHUNK_TEXT

/-- The `for i, chunk in enumerate(retrieved_chunks, start=1)` loop building
the numbered context blocks. -/
def context_parts (i : Nat) : List RetrievedChunk → List Str
  | [] => []
  | c :: cs => context_part i c :: context_parts (i + 1) cs

/-- The fallback returned when no provider is configured
(`app/rag/llm.py` lines 170-174). -/
def FALLBACK_NO_AI : Str :=
  toL "Сейчас ИИ-режим недоступен. Извините, не совсем понимаю, о чем речь. Уточните, пожалуйста, что именно хотите сделать?"

/-- The clarifying fallback returned when no chunk was retrieved
(`app/rag/llm.py` lines 181-185). -/
def FALLBACK_NO_CONTEXT : Str :=
  toL "Извините, не совсем понимаю, о чем речь. Уточните, пожалуйста, что именно вы хотите: бот / сайт / автоматизация / другое?"

/-- The fallback used on a provider error or an empty completion
(`app/rag/llm.py` lines 203-215); note the wording differs from
`FALLBACK_NO_CONTEXT`. -/
def FALLBACK_LLM_FAIL : Str :=
  toL "Извините, не совсем понимаю, о чем речь. Уточните, пожалуйста, что именно хотите сделать: бот / сайт / автоматизация / другое?"

/-- The dedup-and-cite suffix of `generate_answer` (lines 217-223). -/
def source_citation_lines (chunks : List RetrievedChunk) : List Str :=
  (unique_urls (chunks.map (·.source_url))).map (fun u => toL "Источник: " ++ u)

/-- `generate_answer` (`app/rag/llm.py` lines 164-228).  The question and
lead context feed only the prompt that is sent to the provider; the provider
itself is abstracted by `llmOut` (`none` = the call raised, `some out` = the
returned `output_text`). -/
def generate_answer (hasKey : Bool) (chunks : List RetrievedChunk)
    (llmOut : Option Str) : Str :=
  if !hasKey then FALLBACK_NO_AI
  else
    let contextParts := context_parts 1 chunks
    if contextParts.isEmpty then FALLBACK_NO_CONTEXT
    else
      match llmOut with
      | none => FALLBACK_LLM_FAIL
      | some out =>
          let answer0 := pyStrip out
          let answer := if answer0.isEmpty then FALLBACK_LLM_FAIL else answer0
          let lines := source_citation_lines chunks
          if lines.isEmpty then answer
          else answer ++ toL "\n\n" ++ List.intercalate (toL "\n") lines

/-- A raw row of the `kb_chunks` table. -/
structure KbRow where
  content : Str
  source_url : Str
  title : Str
deriving DecidableEq, Repr

/-- Outcome of the embedding provider call inside `RAGStore.search`
(`_embed_texts` has no surrounding try/except). -/
inductive EmbedOutcome where
  | ok (v : List Int)
  | failure
deriving DecidableEq, Repr

/-- Outcome of the `kb_chunks` fetch: rows, the `UndefinedTableError`
that the code catches, or any other database failure. -/
inductive FetchOutcome where
  | rows (rs : List KbRow)
  | undefinedTable
  | dbFailure
deriving DecidableEq, Repr

/-- What `RAGStore.search` does as seen by its caller: a result list, or a
raised exception. -/
inductive SearchOutcome where
  | results (cs : List RetrievedChunk)
  | raised
deriving DecidableEq, Repr

/-- `RAGStore.search` (`app/rag/store.py` lines 80-113): blank query or a
disabled store short-circuit to `[]`; then the query is embedded (an
exception here propagates); the fetch catches only `UndefinedTableError`
(returning `[]`) and keeps rows with non-empty content. -/
def rag_search (enabled : Bool) (query : Str) (embed : EmbedOutcome)
    (fetch : FetchOutcome) : SearchOutcome :=
  let query_text := pyStrip query
  if query_text.isEmpty || !enabled then .results []
  else
    match embed with
    | .failure => .raised
    | .ok _ =>
        match fetch with
        | .undefinedTable => .results []
        | .dbFailure => .raised
        | .rows rs =>
            .results ((rs.filter (fun r => !r.content.isEmpty)).map
              (fun r => ⟨r.content, r.source_url, r.title⟩))

/-!  Concrete sample values used by the witnesses below. -/

def contactStepLead : LeadInfo :=
  { business_connection_id := toL "bc1"
    client_chat_id := 10
    step := STEP_CONTACT_METHOD
    need := some (toL "бот")
    budget := some (toL "до 30k")
    deadline := some (toL "не горит")
    contact_method := none
    phone := none
    call_time := none
    summary_json := none
    escalation_open := false
    escalation_last_at := none
    last_client_message := none
    rag_sources_json := none
    urgency := none
    created_at := 0
    updated_at := 0 }

def doneDirtyLead : LeadInfo :=
  { business_connection_id := toL "bc1"
    client_chat_id := 10
    step := STEP_DONE
    need := some (toL "бот")
    budget := some (toL "30–80k")
    deadline := some (toL "1–2 недели")
    contact_method := some (toL "в Telegram")
    phone := some (toL "+7 (900) 123-45-67")
    call_time := some (toL "завтра")
    summary_json := some (toL "s")
    escalation_open := true
    escalation_last_at := some 3
    last_client_message := some (toL "привет")
    rag_sources_json := some (toL "[]")
    urgency := some (toL "high")
    created_at := 0
    updated_at := 4 }

def sampleChunk : RetrievedChunk :=
  ⟨toL "текст о боте", toL "https://ai-sistemy.ru/", toL "AI"⟩

def sampleExtracted : ExtractedFields :=
  ⟨some (toL "нужен сайт"), none, none, some (toL "по телефону"), none⟩

/-!  Supporting lemmas. -/

theorem strStarts_iff (b : Str) : ∀ a : Str, strStarts a b = true ↔ ∃ t, a = b ++ t := by
  induction b with
  | nil =>
      intro a
      simp [strStarts]
  | cons n ns ih =>
      intro a
      cases a with
      | nil => simp [strStarts]
      | cons h hs =>
          simp only [strStarts, Bool.and_eq_true, decide_eq_true_eq, ih hs]
          constructor
          · rintro ⟨rfl, t, rfl⟩
            exact ⟨t, rfl⟩
          · rintro ⟨t, ht⟩
            simp only [List.cons_append, List.cons.injEq] at ht
            exact ⟨ht.1, t, ht.2⟩

theorem strContains_iff (b : Str) : ∀ a : Str, strContains a b = true ↔ ∃ p s, a = p ++ b ++ s := by
  intro a
  induction a with
  | nil =>
      simp only [strContains, List.isEmpty_iff]
      constructor
      · rintro rfl
        exact ⟨[], [], rfl⟩
      · rintro ⟨p, s, hps⟩
        rcases List.append_eq_nil.mp (List.append_eq_nil.mp hps.symm).1 with ⟨_, h2⟩
        exact h2
  | cons h t ih =>
      simp only [strContains, Bool.or_eq_true, strStarts_iff, ih]
      constructor
      · rintro (⟨s, hs⟩ | ⟨p, s, hps⟩)
        · exact ⟨[], s, by simpa using hs⟩
        · exact ⟨h :: p, s, by simp [hps]⟩
      · rintro ⟨p, s, hps⟩
        cases p with
        | nil =>
            left
            exact ⟨s, by simpa using hps⟩
        | cons q qs =>
            right
            simp only [List.cons_append, List.cons.injEq] at hps
            exact ⟨qs, s, hps.2⟩

/-- Substring containment passes through nested substrings: if `b` occurs in
`a` and `c` occurs in `b`, then `c` occurs in `a`. -/
theorem strContains_trans {a b c : Str} (hab : strContains a b = true)
    (hbc : strContains b c = true) : strContains a c = true := by
  rw [strContains_iff] at hab hbc ⊢
  obtain ⟨p, s, rfl⟩ := hab
  obtain ⟨p', s', rfl⟩ := hbc
  exact ⟨p ++ p', s' ++ s, by simp [List.append_assoc]⟩

lemma getD_map_some_ne_none {o d : Option Str} (h : (o.map some).getD d = none) :
    d = none := by
  cases o with
  | none => simpa using h
  | some v => simp at h

theorem normalize_contact_never_call (value : Str) :
    normalize_contact value ≠ some (toL "созвон") := by
  intro h
  simp only [normalize_contact] at h
  split at h
  · exact absurd (Option.some.inj h) (by decide)
  · split at h
    · exact absurd (Option.some.inj h) (by decide)
    · split at h
      · rename_i h2 h3
        have hz : strContains (strLower value) (toL "звон") = true :=
          strContains_trans h3 (by decide)
        simp [hz] at h2
      · split at h
        · rename_i h2 h3 hmem
          have hv : value = toL "созвон" := Option.some.inj h
          subst hv
          exact h2 (by decide)
        · exact absurd h (by simp)

lemma apply_extracted_need (lead : LeadInfo) (now : Int) (ext : ExtractedFields) :
    (optFalsy lead.need = false → (apply_extracted_fields lead now ext).need = lead.need)
    ∧ ((apply_extracted_fields lead now ext).need = lead.need
       ∨ ∃ s, ext.need = some s ∧ normalize_need s = (apply_extracted_fields lead now ext).need) := by
  constructor
  · intro hf
    have hc1 : (optFalsy lead.need && optTruthy ext.need) = false := by simp [hf]
    simp [apply_extracted_fields, apply_ite LeadInfo.need, update_lead_fields, hc1]
  · by_cases hc1 : (optFalsy lead.need && optTruthy ext.need) = true
    · cases hN : normalize_need (ext.need.getD []) with
      | none =>
          left
          simp [apply_extracted_fields, apply_ite LeadInfo.need, update_lead_fields, hc1, hN]
      | some v =>
          right
          have hc1p := hc1
          simp only [Bool.and_eq_true] at hc1p
          obtain ⟨hFn, hT⟩ := hc1p
          cases hE : ext.need with
          | none => rw [hE] at hT; simp [optTruthy, optFalsy] at hT
          | some s =>
              refine ⟨s, rfl, ?_⟩
              rw [hE] at hN hT
              simp only [Option.getD_some] at hN
              simp [apply_extracted_fields, apply_ite LeadInfo.need, update_lead_fields, hFn, hT,
                hN, hE]
    · have hc1f : (optFalsy lead.need && optTruthy ext.need) = false := by
        simpa using hc1
      left
      simp [apply_extracted_fields, apply_ite LeadInfo.need, update_lead_fields, hc1f]

lemma apply_extracted_budget (lead : LeadInfo) (now : Int) (ext : ExtractedFields) :
    (optFalsy lead.budget = false → (apply_extracted_fields lead now ext).budget = lead.budget)
    ∧ ((apply_extracted_fields lead now ext).budget = lead.budget
       ∨ ∃ s, ext.budget = some s ∧ normalize_budget s = (apply_extracted_fields lead now ext).budget) := by
  constructor
  · intro hf
    have hc1 : (optFalsy lead.budget && optTruthy ext.budget) = false := by simp [hf]
    simp [apply_extracted_fields, apply_ite LeadInfo.budget, update_lead_fields, hc1]
  · by_cases hc1 : (optFalsy lead.budget && optTruthy ext.budget) = true
    · cases hN : normalize_budget (ext.budget.getD []) with
      | none =>
          left
          simp [apply_extracted_fields, apply_ite LeadInfo.budget, update_lead_fields, hc1, hN]
      | some v =>
          right
          have hc1p := hc1
          simp only [Bool.and_eq_true] at hc1p
          obtain ⟨hFn, hT⟩ := hc1p
          cases hE : ext.budget with
          | none => rw [hE] at hT; simp [optTruthy, optFalsy] at hT
          | some s =>
              refine ⟨s, rfl, ?_⟩
              rw [hE] at hN hT
              simp only [Option.getD_some] at hN
              simp [apply_extracted_fields, apply_ite LeadInfo.budget, update_lead_fields, hFn, hT,
                hN, hE]
    · have hc1f : (optFalsy lead.budget && optTruthy ext.budget) = false := by
        simpa using hc1
      left
      simp [apply_extracted_fields, apply_ite LeadInfo.budget, update_lead_fields, hc1f]

lemma apply_extracted_deadline (lead : LeadInfo) (now : Int) (ext : ExtractedFields) :
    (optFalsy lead.deadline = false → (apply_extracted_fields lead now ext).deadline = lead.deadline)
    ∧ ((apply_extracted_fields lead now ext).deadline = lead.deadline
       ∨ ∃ s, ext.timeline = some s ∧ normalize_deadline s = (apply_extracted_fields lead now ext).deadline) := by
  constructor
  · intro hf
    have hc1 : (optFalsy lead.deadline && optTruthy ext.timeline) = false := by simp [hf]
    simp [apply_extracted_fields, apply_ite LeadInfo.deadline, update_lead_fields, hc1]
  · by_cases hc1 : (optFalsy lead.deadline && optTruthy ext.timeline) = true
    · cases hN : normalize_deadline (ext.timeline.getD []) with
      | none =>
          left
          simp [apply_extracted_fields, apply_ite LeadInfo.deadline, update_lead_fields, hc1, hN]
      | some v =>
          right
          have hc1p := hc1
          simp only [Bool.and_eq_true] at hc1p
          obtain ⟨hFn, hT⟩ := hc1p
          cases hE : ext.timeline with
          | none => rw [hE] at hT; simp [optTruthy, optFalsy] at hT
          | some s =>
              refine ⟨s, rfl, ?_⟩
              rw [hE] at hN hT
              simp only [Option.getD_some] at hN
              simp [apply_extracted_fields, apply_ite LeadInfo.deadline, update_lead_fields, hFn, hT,
                hN, hE]
    · have hc1f : (optFalsy lead.deadline && optTruthy ext.timeline) = false := by
        simpa using hc1
      left
      simp [apply_extracted_fields, apply_ite LeadInfo.deadline, update_lead_fields, hc1f]

lemma apply_extracted_contact (lead : LeadInfo) (now : Int) (ext : ExtractedFields) :
    (optFalsy lead.contact_method = false → (apply_extracted_fields lead now ext).contact_method = lead.contact_method)
    ∧ ((apply_extracted_fields lead now ext).contact_method = lead.contact_method
       ∨ ∃ s, ext.contact_method = some s ∧ normalize_contact s = (apply_extracted_fields lead now ext).contact_method) := by
  constructor
  · intro hf
    have hc1 : (optFalsy lead.contact_method && optTruthy ext.contact_method) = false := by simp [hf]
    simp [apply_extracted_fields, apply_ite LeadInfo.contact_method, update_lead_fields, hc1]
  · by_cases hc1 : (optFalsy lead.contact_method && optTruthy ext.contact_method) = true
    · cases hN : normalize_contact (ext.contact_method.getD []) with
      | none =>
          left
          simp [apply_extracted_fields, apply_ite LeadInfo.contact_method, update_lead_fields, hc1, hN]
      | some v =>
          right
          have hc1p := hc1
          simp only [Bool.and_eq_true] at hc1p
          obtain ⟨hFn, hT⟩ := hc1p
          cases hE : ext.contact_method with
          | none => rw [hE] at hT; simp [optTruthy, optFalsy] at hT
          | some s =>
              refine ⟨s, rfl, ?_⟩
              rw [hE] at hN hT
              simp only [Option.getD_some] at hN
              simp [apply_extracted_fields, apply_ite LeadInfo.contact_method, update_lead_fields, hFn, hT,
                hN, hE]
    · have hc1f : (optFalsy lead.contact_method && optTruthy ext.contact_method) = false := by
        simpa using hc1
      left
      simp [apply_extracted_fields, apply_ite LeadInfo.contact_method, update_lead_fields, hc1f]

lemma apply_extracted_phone (lead : LeadInfo) (now : Int) (ext : ExtractedFields) :
    (optFalsy lead.phone = false → (apply_extracted_fields lead now ext).phone = lead.phone)
    ∧ ((apply_extracted_fields lead now ext).phone = lead.phone
       ∨ ∃ s, ext.phone = some s ∧ extract_phone s = (apply_extracted_fields lead now ext).phone) := by
  constructor
  · intro hf
    have hc1 : (optFalsy lead.phone && optTruthy ext.phone) = false := by simp [hf]
    simp [apply_extracted_fields, apply_ite LeadInfo.phone, update_lead_fields, hc1]
  · by_cases hc1 : (optFalsy lead.phone && optTruthy ext.phone) = true
    · cases hN : extract_phone (ext.phone.getD []) with
      | none =>
          left
          simp [apply_extracted_fields, apply_ite LeadInfo.phone, update_lead_fields, hc1, hN]
      | some v =>
          right
          have hc1p := hc1
          simp only [Bool.and_eq_true] at hc1p
          obtain ⟨hFn, hT⟩ := hc1p
          cases hE : ext.phone with
          | none => rw [hE] at hT; simp [optTruthy, optFalsy] at hT
          | some s =>
              refine ⟨s, rfl, ?_⟩
              rw [hE] at hN hT
              simp only [Option.getD_some] at hN
              simp [apply_extracted_fields, apply_ite LeadInfo.phone, update_lead_fields, hFn, hT,
                hN, hE]
    · have hc1f : (optFalsy lead.phone && optTruthy ext.phone) = false := by
        simpa using hc1
      left
      simp [apply_extracted_fields, apply_ite LeadInfo.phone, update_lead_fields, hc1f]

lemma uniqueUrlsGo_nodup : ∀ (l seen : List Str),
    (uniqueUrlsGo seen l).Nodup ∧ ∀ x ∈ uniqueUrlsGo seen l, x ∉ seen := by
  intro l
  induction l with
  | nil => intro seen; simp [uniqueUrlsGo]
  | cons u rest ih =>
      intro seen
      simp only [uniqueUrlsGo]
      split
      · rename_i hcond
        obtain ⟨hnd, hnotin⟩ := ih (pyStrip u :: seen)
        refine ⟨List.nodup_cons.mpr ⟨fun hmem => (hnotin _ hmem) (List.mem_cons_self _ _), hnd⟩, ?_⟩
        intro x hx
        rcases List.mem_cons.mp hx with rfl | hx'
        · exact hcond.2
        · intro hxseen
          exact (hnotin x hx') (List.mem_cons_of_mem _ hxseen)
      · exact ih seen

lemma uniqueUrlsGo_sublist : ∀ (l seen : List Str),
    List.Sublist (uniqueUrlsGo seen l) (l.map pyStrip) := by
  intro l
  induction l with
  | nil => intro seen; simp [uniqueUrlsGo]
  | cons u rest ih =>
      intro seen
      simp only [uniqueUrlsGo, List.map_cons]
      split
      · exact List.Sublist.cons₂ _ (ih _)
      · exact List.Sublist.cons _ (ih _)

lemma getLast?_mem_own {α : Type} : ∀ (l : List α) (a : α), l.getLast? = some a → a ∈ l := by
  intro l
  induction l with
  | nil => intro a h; simp at h
  | cons x t ih =>
      intro a h
      cases t with
      | nil =>
          simp only [List.getLast?_singleton, Option.some.injEq] at h
          subst h
          exact List.mem_singleton_self _
      | cons y t' =>
          rw [List.getLast?_cons_cons] at h
          exact List.mem_cons_of_mem x (ih a h)

lemma digit_not_space {c : Char} (h : isDigitChar c = true) : isSpaceChar c = false := by
  simp only [isDigitChar, Bool.and_eq_true, decide_eq_true_eq] at h
  cases hs : isSpaceChar c
  · rfl
  · exfalso
    simp only [isSpaceChar, Bool.or_eq_true, decide_eq_true_eq] at hs
    rcases hs with ((((hc | hc) | hc) | hc) | hc) | hc
    · rw [show c.toNat = 32 by rw [hc]; rfl] at h; omega
    · rw [show c.toNat = 9 by rw [hc]; rfl] at h; omega
    · rw [show c.toNat = 10 by rw [hc]; rfl] at h; omega
    · rw [show c.toNat = 13 by rw [hc]; rfl] at h; omega
    · omega
    · omega

lemma phoneCore_shape : ∀ {s g : Str}, phoneCore s = some g →
    ∃ d mid c, g = d :: (mid ++ [c]) ∧ isDigitChar d = true ∧ isDigitChar c = true
      ∧ 8 ≤ mid.length := by
  intro s g h
  cases s with
  | nil => simp [phoneCore] at h
  | cons d rest =>
      simp only [phoneCore] at h
      split at h
      · rename_i hd
        split at h
        · rename_i k hlast
          split at h
          · rename_i c hck
            have hg : d :: ((rest.takeWhile isPhoneSep).take k ++ [c]) = g := Option.some.inj h
            have hkmem := getLast?_mem_own _ _ hlast
            rw [List.mem_filter] at hkmem
            obtain ⟨hkrange, hkcond⟩ := hkmem
            simp only [Bool.and_eq_true, decide_eq_true_eq] at hkcond
            have hk8 : 8 ≤ k := hkcond.1
            have hcd : isDigitChar c = true := by
              rw [hck] at hkcond
              simpa using hkcond.2
            have hklt : k < (rest.takeWhile isPhoneSep).length := by
              rcases List.getElem?_eq_some.mp hck with ⟨hlt, -⟩
              exact hlt
            refine ⟨d, (rest.takeWhile isPhoneSep).take k, c, hg.symm, hd, hcd, ?_⟩
            rw [List.length_take]
            omega
          · exact absurd h (by simp)
        · exact absurd h (by simp)
      · exact absurd h (by simp)

lemma phoneScan_shape : ∀ {v g : Str}, phoneScan v = some g →
    ∃ a mid c, g = a :: (mid ++ [c]) ∧ isSpaceChar a = false ∧ isSpaceChar c = false
      ∧ 8 ≤ mid.length := by
  intro v
  induction v with
  | nil => intro g h; simp [phoneScan] at h
  | cons x rest ih =>
      intro g h
      simp only [phoneScan] at h
      by_cases hx : x = '+'
      · simp only [hx, if_pos rfl] at h
        cases hp : phoneCore rest with
        | none => rw [hp] at h; exact ih h
        | some g' =>
            rw [hp] at h
            simp only [Option.map_some'] at h
            obtain ⟨d, mid, c, hshape, hd, hc, hlen⟩ := phoneCore_shape hp
            have hg : g = '+' :: (d :: mid ++ [c]) := by
              rw [← Option.some.inj h, hshape]
              simp
            refine ⟨'+', d :: mid, c, by simpa using hg, by decide, digit_not_space hc, ?_⟩
            simp
            omega
      · simp only [if_neg hx] at h
        cases hp : phoneCore (x :: rest) with
        | none => rw [hp] at h; exact ih h
        | some g' =>
            rw [hp] at h
            obtain ⟨d, mid, c, hshape, hd, hc, hlen⟩ := phoneCore_shape hp
            exact ⟨d, mid, c, by rw [← Option.some.inj h, hshape], digit_not_space hd,
              digit_not_space hc, hlen⟩

lemma pyStrip_sandwich (a c : Char) (mid : Str) (ha : isSpaceChar a = false)
    (hc : isSpaceChar c = false) :
    pyStrip (a :: (mid ++ [c])) = a :: (mid ++ [c]) := by
  simp [pyStrip, List.dropWhile_cons, ha, hc, List.reverse_append]

theorem extract_phone_min_length : ∀ {v p : Str}, extract_phone v = some p → 10 ≤ p.length := by
  intro v p h
  simp only [extract_phone, Option.map_eq_some'] at h
  obtain ⟨g, hg, hp⟩ := h
  obtain ⟨a, mid, c, hshape, ha, hc, hlen⟩ := phoneScan_shape hg
  rw [hshape] at hp
  rw [pyStrip_sandwich a c mid ha hc] at hp
  rw [← hp]
  simp
  omega

/-!  The claims. -/

/-- Claim C1: on the escalations row, `mark_escalation` returns `should_alert = true` exactly when no `last_alert_at` is stored or at least `cooldown_minutes` have elapsed since it; when it returns `false` the stored `last_alert_at` is unchanged; `reason`, `urgency` and `last_message` are refreshed and `escalation_open` is set on every call; of two calls inside the cooldown window only the first alerts, and a third call after the window has elapsed alerts again. -/
theorem mark_escalation_cooldown (row : Option EscalationRow) (now : Int)
    (reason urgency msg : Str) (cd : Int) :
    ((mark_escalation row now reason urgency msg cd).1 = true ↔
       escLastAt row = none ∨ ∃ prev, escLastAt row = some prev ∧ cd ≤ now - prev)
    ∧ ((mark_escalation row now reason urgency msg cd).1 = false →
        (mark_escalation row now reason urgency msg cd).2.last_alert_at = escLastAt row)
    ∧ ((mark_escalation row now reason urgency msg cd).1 = true →
        (mark_escalation row now reason urgency msg cd).2.last_alert_at = some now)
    ∧ (mark_escalation row now reason urgency msg cd).2.reason = reason
    ∧ (mark_escalation row now reason urgency msg cd).2.urgency = urgency
    ∧ (mark_escalation row now reason urgency msg cd).2.last_message = msg
    ∧ (mark_escalation row now reason urgency msg cd).2.escalation_open = true
    ∧ (∀ t0 t1 t2 : Int, t1 - t0 < cd → cd ≤ t2 - t0 →
        (mark_escalation none t0 reason urgency msg cd).1 = true
        ∧ (mark_escalation
            (some (mark_escalation none t0 reason urgency msg cd).2)
            t1 reason urgency msg cd).1 = false
        ∧ (mark_escalation
            (some (mark_escalation
              (some (mark_escalation none t0 reason urgency msg cd).2)
              t1 reason urgency msg cd).2)
            t2 reason urgency msg cd).1 = true) := by
  refine ⟨?_, ?_, ?_, ?_, ?_, ?_, ?_, ?_⟩
  · cases row with
    | none => simp [mark_escalation, escLastAt]
    | some r =>
        cases h : r.last_alert_at with
        | none => simp [mark_escalation, escLastAt, h]
        | some prev =>
            simp only [mark_escalation, escLastAt, Option.some_bind, h,
              Bool.not_eq_eq_eq_not, Bool.not_true, decide_eq_false_iff_not, not_lt,
              Option.some.injEq, reduceCtorEq, false_or]
            constructor
            · intro hb
              exact ⟨prev, rfl, by omega⟩
            · rintro ⟨p, rfl, hle⟩
              omega
  · cases row with
    | none => simp [mark_escalation, escLastAt]
    | some r =>
        cases h : r.last_alert_at with
        | none => simp [mark_escalation, escLastAt, h]
        | some prev =>
            simp only [mark_escalation, escLastAt, Option.some_bind, h]
            intro hb
            simp only [Bool.not_eq_false'] at hb
            simp [hb]
  · cases row with
    | none => simp [mark_escalation]
    | some r =>
        cases h : r.last_alert_at with
        | none => simp [mark_escalation, h]
        | some prev =>
            simp only [mark_escalation, h]
            intro hb
            simp [hb]
  · cases row <;> simp [mark_escalation]
  · cases row <;> simp [mark_escalation]
  · cases row <;> simp [mark_escalation]
  · cases row <;> simp [mark_escalation]
  · intro t0 t1 t2 h1 h2
    refine ⟨by simp [mark_escalation], ?_, ?_⟩
    · simp [mark_escalation, h1]
    · simp [mark_escalation, h1, show ¬(t2 - t0 < cd) by omega]

/-- Witness for claim C1 at the concrete instants 0, 5 and 15 with a 10-minute cooldown. -/
theorem mark_escalation_cooldown_witness :
    ((mark_escalation (some ⟨true, some 0, [], [], []⟩) 5 (toL "r") (toL "u") (toL "m") 10).1 = false
      ∧ (mark_escalation (some ⟨true, some 0, [], [], []⟩) 5 (toL "r") (toL "u") (toL "m") 10).2.last_alert_at = some 0)
    ∧ ((mark_escalation none 0 (toL "r") (toL "u") (toL "m") 10).1 = true
      ∧ (mark_escalation (some (mark_escalation none 0 (toL "r") (toL "u") (toL "m") 10).2)
          5 (toL "r") (toL "u") (toL "m") 10).1 = false
      ∧ (mark_escalation
          (some (mark_escalation (some (mark_escalation none 0 (toL "r") (toL "u") (toL "m") 10).2)
            5 (toL "r") (toL "u") (toL "m") 10).2)
          15 (toL "r") (toL "u") (toL "m") 10).1 = true) := by
  obtain ⟨hiff, hfalse, htrue, hr, hu, hm, hop, hscen⟩ :=
    mark_escalation_cooldown (some ⟨true, some 0, [], [], []⟩) 5 (toL "r") (toL "u") (toL "m") 10
  have h1 : (mark_escalation (some ⟨true, some 0, [], [], []⟩) 5 (toL "r") (toL "u") (toL "m") 10).1 = false := by
    decide
  exact ⟨⟨h1, hfalse h1⟩, hscen 0 5 15 (by decide) (by decide)⟩

/-- Claim C2: `update_lead_fields` modifies only the columns supplied as non-`None` arguments, always stamps `updated_at`, and never nulls out a column; in particular updating only `budget` leaves `need`, `deadline` and `contact_method` unchanged and advances `updated_at`. -/
theorem update_lead_fields_frame (lead : LeadInfo) (now : Int) (u : LeadUpdate) :
    ((update_lead_fields lead now u).updated_at = now)
    ∧ (u.step = none → (update_lead_fields lead now u).step = lead.step)
    ∧ (u.need = none → (update_lead_fields lead now u).need = lead.need)
    ∧ (u.budget = none → (update_lead_fields lead now u).budget = lead.budget)
    ∧ (u.deadline = none → (update_lead_fields lead now u).deadline = lead.deadline)
    ∧ (u.contact_method = none → (update_lead_fields lead now u).contact_method = lead.contact_method)
    ∧ (u.phone = none → (update_lead_fields lead now u).phone = lead.phone)
    ∧ (u.call_time = none → (update_lead_fields lead now u).call_time = lead.call_time)
    ∧ (u.summary = none → (update_lead_fields lead now u).summary_json = lead.summary_json)
    ∧ (u.escalation_open = none → (update_lead_fields lead now u).escalation_open = lead.escalation_open)
    ∧ (u.escalation_last_at = none → (update_lead_fields lead now u).escalation_last_at = lead.escalation_last_at)
    ∧ (u.last_client_message = none → (update_lead_fields lead now u).last_client_message = lead.last_client_message)
    ∧ (u.rag_sources = none → (update_lead_fields lead now u).rag_sources_json = lead.rag_sources_json)
    ∧ (u.urgency = none → (update_lead_fields lead now u).urgency = lead.urgency)
    ∧ ((update_lead_fields lead now u).need = none → lead.need = none)
    ∧ ((update_lead_fields lead now u).budget = none → lead.budget = none)
    ∧ ((update_lead_fields lead now u).deadline = none → lead.deadline = none)
    ∧ ((update_lead_fields lead now u).contact_method = none → lead.contact_method = none)
    ∧ ((update_lead_fields lead now u).phone = none → lead.phone = none)
    ∧ ((update_lead_fields lead now u).call_time = none → lead.call_time = none)
    ∧ (∀ b : Str,
        (update_lead_fields lead now { noUpdate with budget := some b }).budget = some b
        ∧ (update_lead_fields lead now { noUpdate with budget := some b }).need = lead.need
        ∧ (update_lead_fields lead now { noUpdate with budget := some b }).deadline = lead.deadline
        ∧ (update_lead_fields lead now { noUpdate with budget := some b }).contact_method = lead.contact_method
        ∧ (lead.updated_at < now →
            lead.updated_at < (update_lead_fields lead now { noUpdate with budget := some b }).updated_at)) := by
  refine ⟨rfl, ?_, ?_, ?_, ?_, ?_, ?_, ?_, ?_, ?_, ?_, ?_, ?_, ?_,
    fun h => getD_map_some_ne_none h, fun h => getD_map_some_ne_none h,
    fun h => getD_map_some_ne_none h, fun h => getD_map_some_ne_none h,
    fun h => getD_map_some_ne_none h, fun h => getD_map_some_ne_none h, ?_⟩
  · intro h; simp [update_lead_fields, h]
  · intro h; simp [update_lead_fields, h]
  · intro h; simp [update_lead_fields, h]
  · intro h; simp [update_lead_fields, h]
  · intro h; simp [update_lead_fields, h]
  · intro h; simp [update_lead_fields, h]
  · intro h; simp [update_lead_fields, h]
  · intro h; simp [update_lead_fields, h]
  · intro h; simp [update_lead_fields, h]
  · intro h; simp [update_lead_fields, h]
  · intro h; simp [update_lead_fields, h]
  · intro h; simp [update_lead_fields, h]
  · intro h; simp [update_lead_fields, h]
  · intro b
    refine ⟨rfl, rfl, rfl, rfl, fun h => ?_⟩
    simpa [update_lead_fields] using h

/-- Witness for claim C2: a budget-only update on a concrete lead. -/
theorem update_lead_fields_frame_witness :
    (update_lead_fields contactStepLead 5 { noUpdate with budget := some (toL "150k+") }).budget
        = some (toL "150k+")
    ∧ (update_lead_fields contactStepLead 5 { noUpdate with budget := some (toL "150k+") }).need
        = contactStepLead.need
    ∧ (update_lead_fields contactStepLead 5 { noUpdate with budget := some (toL "150k+") }).deadline
        = contactStepLead.deadline
    ∧ (update_lead_fields contactStepLead 5 { noUpdate with budget := some (toL "150k+") }).contact_method
        = contactStepLead.contact_method
    ∧ contactStepLead.updated_at
        < (update_lead_fields contactStepLead 5 { noUpdate with budget := some (toL "150k+") }).updated_at := by
  obtain ⟨-, -, -, -, -, -, -, -, -, -, -, -, -, -, -, -, -, -, -, -, hb⟩ :=
    update_lead_fields_frame contactStepLead 5 noUpdate
  obtain ⟨h1, h2, h3, h4, h5⟩ := hb (toL "150k+")
  exact ⟨h1, h2, h3, h4, h5 (by decide)⟩

/-- Claim C3: every text whose lower-cased form contains an explicit human-request phrase receives the fixed first-tier verdict — `need_human = true`, `negative = false`, urgency high, confidence 0.95 — from the rule tiers alone; the result is the same for every possible LLM verdict, so no later tier and no LLM call can influence it. -/
theorem risk_human_request (text : Str) (llm llm2 : RiskVerdict)
    (h : containsAny (strLower text) HUMAN_REQUEST_PATTERNS = true) :
    rule_based_risk text = some humanRequestVerdict
    ∧ risk_of text llm = humanRequestVerdict
    ∧ risk_of text llm = risk_of text llm2
    ∧ (risk_of text llm).need_human = true
    ∧ (risk_of text llm).negative = false
    ∧ (risk_of text llm).urgency = toL "high"
    ∧ (risk_of text llm).confidence = 95 := by
  have hr : rule_based_risk text = some humanRequestVerdict := by
    simp [rule_based_risk, h]
  refine ⟨hr, ?_, ?_, ?_, ?_, ?_, ?_⟩ <;> simp [risk_of, hr, humanRequestVerdict]

/-- Witness for claim C3 on the text \"хочу поговорить с менеджером\". -/
theorem risk_human_request_witness :
    containsAny (strLower (toL "хочу поговорить с менеджером")) HUMAN_REQUEST_PATTERNS = true
    ∧ risk_of (toL "хочу поговорить с менеджером") neutralRisk = humanRequestVerdict
    ∧ risk_of (toL "хочу поговорить с менеджером") neutralRisk
        = risk_of (toL "хочу поговорить с менеджером") humanRequestVerdict := by
  have h : containsAny (strLower (toL "хочу поговорить с менеджером")) HUMAN_REQUEST_PATTERNS = true := by
    decide
  obtain ⟨-, h2, h3, -⟩ := risk_human_request (toL "хочу поговорить с менеджером") neutralRisk humanRequestVerdict h
  exact ⟨h, h2, h3⟩

/-- Claim C4 (code bug): at step CONTACT_METHOD the contact-keyboard option \"созвон\" normalizes to \"по телефону\", because the `\"звон\"` substring check precedes the `\"созвон\"` check and `\"созвон\"` contains `\"звон\"`; the lead therefore advances to PHONE instead of the claimed CALL_TIME.  Inputs normalizing to the phone and in-chat contact methods do advance to PHONE and DONE as claimed. -/
theorem contact_sozvon_diverges :
    normalize_contact (toL "созвон") = some (toL "по телефону")
    ∧ (lead_dialog_no_llm contactStepLead 1 (toL "созвон")).contact_method = some (toL "по телефону")
    ∧ (lead_dialog_no_llm contactStepLead 1 (toL "созвон")).step = STEP_PHONE
    ∧ (lead_dialog_no_llm contactStepLead 1 (toL "созвон")).step ≠ STEP_CALL_TIME
    ∧ (lead_dialog_no_llm contactStepLead 1 (toL "по телефону")).step = STEP_PHONE
    ∧ (lead_dialog_no_llm contactStepLead 1 (toL "в Telegram")).step = STEP_DONE := by
  decide

/-- Counterexample to claim C5 as stated: the text \"от 30 до 80\" contains both \"30\" and \"80\" yet resolves to the \"до 30k\" tier, because the earlier branch also matches its \"до\". -/
theorem budget_30_80_counterexample :
    normalize_budget (toL "от 30 до 80") = some (toL "до 30k")
    ∧ normalize_budget (toL "от 30 до 80") ≠ some (toL "30–80k") := by
  decide

/-- Claim C5 (amended): every input whose lower-cased space-stripped form contains both \"30\" and \"80\" and contains neither \"до\" nor \"<\" resolves to the 30–80 tier, never to the \"up to 30\" tier. -/
theorem budget_30_80_amended (value : Str)
    (h30 : strContains (removeSpaces (strLower value)) (toL "30") = true)
    (h80 : strContains (removeSpaces (strLower value)) (toL "80") = true)
    (hdo : strContains (removeSpaces (strLower value)) (toL "до") = false)
    (hlt : strContains (removeSpaces (strLower value)) (toL "<") = false) :
    normalize_budget value = some (toL "30–80k") := by
  simp [normalize_budget, h30, h80, hdo, hlt]

/-- Witness for the amended claim C5 on the input \"30-80\". -/
theorem budget_30_80_amended_witness :
    strContains (removeSpaces (strLower (toL "30-80"))) (toL "30") = true
    ∧ strContains (removeSpaces (strLower (toL "30-80"))) (toL "80") = true
    ∧ strContains (removeSpaces (strLower (toL "30-80"))) (toL "до") = false
    ∧ strContains (removeSpaces (strLower (toL "30-80"))) (toL "<") = false
    ∧ normalize_budget (toL "30-80") = some (toL "30–80k") :=
  ⟨by decide, by decide, by decide, by decide,
    budget_30_80_amended (toL "30-80") (by decide) (by decide) (by decide) (by decide)⟩

/-- Claim C6: a lead at step DONE is put through the atomic full reset before any further handling — the step becomes 0 and every collected field (need, budget, deadline, contact method, phone, call time, summary, escalation fields, rag sources, urgency) is cleared. -/
theorem done_reentry_reset (lead : LeadInfo) (now : Int) (h : lead.step = STEP_DONE) :
    (reset_if_done lead now).step = 0
    ∧ (reset_if_done lead now).need = none
    ∧ (reset_if_done lead now).budget = none
    ∧ (reset_if_done lead now).deadline = none
    ∧ (reset_if_done lead now).contact_method = none
    ∧ (reset_if_done lead now).phone = none
    ∧ (reset_if_done lead now).call_time = none
    ∧ (reset_if_done lead now).summary_json = none
    ∧ (reset_if_done lead now).escalation_open = false
    ∧ (reset_if_done lead now).escalation_last_at = none
    ∧ (reset_if_done lead now).last_client_message = none
    ∧ (reset_if_done lead now).rag_sources_json = none
    ∧ (reset_if_done lead now).urgency = none
    ∧ (reset_if_done lead now).updated_at = now := by
  simp [reset_if_done, h, create_or_reset_lead]

/-- Witness for claim C6 on a fully populated finished lead. -/
theorem done_reentry_reset_witness :
    doneDirtyLead.step = STEP_DONE
    ∧ (reset_if_done doneDirtyLead 9).step = 0
    ∧ (reset_if_done doneDirtyLead 9).need = none
    ∧ (reset_if_done doneDirtyLead 9).budget = none
    ∧ (reset_if_done doneDirtyLead 9).deadline = none
    ∧ (reset_if_done doneDirtyLead 9).contact_method = none
    ∧ (reset_if_done doneDirtyLead 9).phone = none
    ∧ (reset_if_done doneDirtyLead 9).call_time = none
    ∧ (reset_if_done doneDirtyLead 9).summary_json = none
    ∧ (reset_if_done doneDirtyLead 9).escalation_open = false
    ∧ (reset_if_done doneDirtyLead 9).escalation_last_at = none
    ∧ (reset_if_done doneDirtyLead 9).last_client_message = none
    ∧ (reset_if_done doneDirtyLead 9).rag_sources_json = none
    ∧ (reset_if_done doneDirtyLead 9).urgency = none := by
  obtain ⟨h1, h2, h3, h4, h5, h6, h7, h8, h9, h10, h11, h12, h13, -⟩ :=
    done_reentry_reset doneDirtyLead 9 (by decide)
  exact ⟨by decide, h1, h2, h3, h4, h5, h6, h7, h8, h9, h10, h11, h12, h13⟩

/-- Claim C7: an LLM-extracted proposal is applied only when the corresponding lead field is currently unset, after passing through the same normalization function as guided answers; a field that is already set is never overwritten by inference. -/
theorem extracted_fields_fill_only_unset (lead : LeadInfo) (now : Int) (ext : ExtractedFields) :
    ((optFalsy lead.need = false → (apply_extracted_fields lead now ext).need = lead.need)
      ∧ ((apply_extracted_fields lead now ext).need = lead.need
         ∨ ∃ s, ext.need = some s ∧ normalize_need s = (apply_extracted_fields lead now ext).need))
    ∧ ((optFalsy lead.budget = false → (apply_extracted_fields lead now ext).budget = lead.budget)
      ∧ ((apply_extracted_fields lead now ext).budget = lead.budget
         ∨ ∃ s, ext.budget = some s ∧ normalize_budget s = (apply_extracted_fields lead now ext).budget))
    ∧ ((optFalsy lead.deadline = false → (apply_extracted_fields lead now ext).deadline = lead.deadline)
      ∧ ((apply_extracted_fields lead now ext).deadline = lead.deadline
         ∨ ∃ s, ext.timeline = some s ∧ normalize_deadline s = (apply_extracted_fields lead now ext).deadline))
    ∧ ((optFalsy lead.contact_method = false →
          (apply_extracted_fields lead now ext).contact_method = lead.contact_method)
      ∧ ((apply_extracted_fields lead now ext).contact_method = lead.contact_method
         ∨ ∃ s, ext.contact_method = some s
             ∧ normalize_contact s = (apply_extracted_fields lead now ext).contact_method))
    ∧ ((optFalsy lead.phone = false → (apply_extracted_fields lead now ext).phone = lead.phone)
      ∧ ((apply_extracted_fields lead now ext).phone = lead.phone
         ∨ ∃ s, ext.phone = some s ∧ extract_phone s = (apply_extracted_fields lead now ext).phone)) :=
  ⟨apply_extracted_need lead now ext, apply_extracted_budget lead now ext,
    apply_extracted_deadline lead now ext, apply_extracted_contact lead now ext,
    apply_extracted_phone lead now ext⟩

/-- Witness for claim C7: a proposal for the already-set `need` field of a concrete lead is discarded. -/
theorem extracted_fields_fill_only_unset_witness :
    optFalsy contactStepLead.need = false
    ∧ (apply_extracted_fields contactStepLead 2 sampleExtracted).need = contactStepLead.need := by
  obtain ⟨⟨hn, -⟩, -⟩ := extracted_fields_fill_only_unset contactStepLead 2 sampleExtracted
  exact ⟨by decide, hn (by decide)⟩

/-- Counterexample to claim C8 as stated: on an empty completion `generate_answer` does not return the empty-retrieval fallback — it returns the differently worded provider-failure fallback with the citation list appended; the two fallback texts are not the same string. -/
theorem generate_answer_empty_completion_counterexample :
    generate_answer true [sampleChunk] (some (toL "")) ≠ FALLBACK_NO_CONTEXT
    ∧ generate_answer true [sampleChunk] (some (toL "")) ≠ FALLBACK_LLM_FAIL
    ∧ generate_answer true [sampleChunk] (some (toL ""))
        = FALLBACK_LLM_FAIL ++ toL "\n\n" ++ toL "Источник: https://ai-sistemy.ru/"
    ∧ generate_answer true [sampleChunk] none = FALLBACK_LLM_FAIL
    ∧ FALLBACK_LLM_FAIL ≠ FALLBACK_NO_CONTEXT := by
  set_option maxRecDepth 4000 in decide

/-- Claim C8 (amended): with no chunks `generate_answer` returns the fixed clarifying fallback whatever the provider would do, with no citations; with no provider configured it returns the \"AI unavailable\" fallback immediately; on a provider error it returns the provider-failure fallback (worded slightly differently from the empty-retrieval fallback) with no citations; on an empty completion it returns that fallback text with the deduplicated source list appended; on a non-empty completion it appends the deduplicated (first-occurrence-wins, insertion-order) source URLs. -/
theorem generate_answer_amended (chunks : List RetrievedChunk) (r : Option Str) (out : Str) :
    (generate_answer false chunks r = FALLBACK_NO_AI)
    ∧ (generate_answer true [] r = FALLBACK_NO_CONTEXT)
    ∧ (chunks ≠ [] → generate_answer true chunks none = FALLBACK_LLM_FAIL)
    ∧ (chunks ≠ [] → pyStrip out = [] → source_citation_lines chunks ≠ [] →
        generate_answer true chunks (some out)
          = FALLBACK_LLM_FAIL ++ toL "\n\n"
              ++ List.intercalate (toL "\n") (source_citation_lines chunks))
    ∧ (chunks ≠ [] → pyStrip out ≠ [] → source_citation_lines chunks ≠ [] →
        generate_answer true chunks (some out)
          = pyStrip out ++ toL "\n\n"
              ++ List.intercalate (toL "\n") (source_citation_lines chunks))
    ∧ (unique_urls (chunks.map (·.source_url))).Nodup
    ∧ List.Sublist (unique_urls (chunks.map (·.source_url)))
        ((chunks.map (·.source_url)).map pyStrip)
    ∧ FALLBACK_LLM_FAIL ≠ FALLBACK_NO_CONTEXT := by
  refine ⟨rfl, rfl, ?_, ?_, ?_, (uniqueUrlsGo_nodup _ []).1, uniqueUrlsGo_sublist _ [],
    by decide⟩
  · intro hc
    cases chunks with
    | nil => exact absurd rfl hc
    | cons c cs => rfl
  · intro hc hstrip hlines
    cases chunks with
    | nil => exact absurd rfl hc
    | cons c cs =>
        simp [generate_answer, context_parts, hstrip, List.isEmpty_iff, hlines]
  · intro hc hstrip hlines
    cases chunks with
    | nil => exact absurd rfl hc
    | cons c cs =>
        simp [generate_answer, context_parts, List.isEmpty_iff, hstrip, hlines]

/-- Witness for the amended claim C8 on a concrete chunk and completion. -/
theorem generate_answer_amended_witness :
    ([sampleChunk] ≠ ([] : List RetrievedChunk))
    ∧ pyStrip (toL "Ответ по базе.") ≠ []
    ∧ source_citation_lines [sampleChunk] ≠ []
    ∧ generate_answer true [sampleChunk] (some (toL "Ответ по базе."))
        = pyStrip (toL "Ответ по базе.") ++ toL "\n\n"
            ++ List.intercalate (toL "\n") (source_citation_lines [sampleChunk]) := by
  obtain ⟨-, -, -, -, hs, -⟩ :=
    generate_answer_amended [sampleChunk] none (toL "Ответ по базе.")
  exact ⟨by decide, by decide, by decide, hs (by decide) (by decide) (by decide)⟩

/-- Counterexample to claim C9 as stated: with the store enabled and a non-blank query, a failing embedding provider makes `RAGStore.search` raise instead of returning an empty result — there is no try/except around `_embed_texts`. -/
theorem rag_search_provider_failure_counterexample :
    rag_search true (toL "вопрос") EmbedOutcome.failure (FetchOutcome.rows []) = SearchOutcome.raised
    ∧ rag_search true (toL "вопрос") EmbedOutcome.failure (FetchOutcome.rows [])
        ≠ SearchOutcome.results [] := by
  decide

/-- Claim C9 (amended): retrieval returns an empty result rather than raising when the provider is unconfigured, when the query is blank, or when the chunk table is missing; but a failure of the configured embedding provider, or any store failure other than a missing table, propagates to the caller. -/
theorem rag_search_amended (q : Str) (e : EmbedOutcome) (f : FetchOutcome) (v : List Int) :
    (rag_search false q e f = SearchOutcome.results [])
    ∧ (pyStrip q = [] → rag_search true q e f = SearchOutcome.results [])
    ∧ (pyStrip q ≠ [] →
        rag_search true q (EmbedOutcome.ok v) FetchOutcome.undefinedTable = SearchOutcome.results [])
    ∧ (pyStrip q ≠ [] → rag_search true q EmbedOutcome.failure f = SearchOutcome.raised)
    ∧ (pyStrip q ≠ [] →
        rag_search true q (EmbedOutcome.ok v) FetchOutcome.dbFailure = SearchOutcome.raised) := by
  refine ⟨?_, ?_, ?_, ?_, ?_⟩
  · simp [rag_search]
  · intro h; simp [rag_search, List.isEmpty_iff, h]
  · intro h; simp [rag_search, List.isEmpty_iff, h]
  · intro h; simp [rag_search, List.isEmpty_iff, h]
  · intro h; simp [rag_search, List.isEmpty_iff, h]

/-- Witness for the amended claim C9 on a concrete query. -/
theorem rag_search_amended_witness :
    (pyStrip (toL "вопрос") ≠ [])
    ∧ rag_search false (toL "вопрос") EmbedOutcome.failure FetchOutcome.dbFailure
        = SearchOutcome.results []
    ∧ rag_search true (toL "вопрос") (EmbedOutcome.ok []) FetchOutcome.undefinedTable
        = SearchOutcome.results []
    ∧ rag_search true (toL "вопрос") EmbedOutcome.failure FetchOutcome.dbFailure
        = SearchOutcome.raised := by
  obtain ⟨h1, -, h3, h4, -⟩ :=
    rag_search_amended (toL "вопрос") EmbedOutcome.failure FetchOutcome.dbFailure []
  exact ⟨by decide, h1, h3 (by decide), h4 (by decide)⟩

/-- Counterexample to claim C10 as stated: the nine-digit run \"123456789\" is not extracted at all (the regex needs at least ten characters), and the extraction for \"позвоните мне 8 900 123 45 67\" is not the collapsed digit string. -/
theorem extract_phone_counterexample :
    extract_phone (toL "123456789") = none
    ∧ extract_phone (toL "позвоните мне 8 900 123 45 67") ≠ some (toL "89001234567") := by
  decide

/-- Claim C10 (amended): phone extraction returns the first substring made of an optional leading +, a digit, at least eight digit/space/hyphen/parenthesis characters and a final digit — hence at least ten characters, so a bare nine-digit run is not matched — and strips only leading and trailing whitespace, preserving the internal separators; on \"позвоните мне 8 900 123 45 67\" it returns \"8 900 123 45 67\". -/
theorem extract_phone_amended :
    extract_phone (toL "позвоните мне 8 900 123 45 67") = some (toL "8 900 123 45 67")
    ∧ extract_phone (toL "123456789") = none
    ∧ extract_phone (toL "1234567890") = some (toL "1234567890")
    ∧ extract_phone (toL "+7 (900) 123-45-67") = some (toL "+7 (900) 123-45-67")
    ∧ ∀ v p : Str, extract_phone v = some p → 10 ≤ p.length := by
  refine ⟨by decide, by decide, by decide, by decide, ?_⟩
  intro v p h
  exact extract_phone_min_length h

/-- Witness for the amended claim C10: the minimum-length bound applied to the extracted example phone. -/
theorem extract_phone_amended_witness :
    extract_phone (toL "позвоните мне 8 900 123 45 67") = some (toL "8 900 123 45 67")
    ∧ 10 ≤ (toL "8 900 123 45 67").length := by
  obtain ⟨h1, -, -, -, hlen⟩ := extract_phone_amended
  exact ⟨h1, hlen (toL "позвоните мне 8 900 123 45 67") (toL "8 900 123 45 67") h1⟩
